import Mathlib

/-!
# Verification of the C3DS secure telemetry pipeline firmware

Shallow embedding, in Lean 4, of the core logic of the two ESP8266 device
templates (`ESP8266_P256` ultrasonic variant and `ESP8266_C3DS_sensor`
button variant): DER encoding of ECDSA signatures, base64 encoding,
the hysteresis and debounce detection state machines, heartbeat/alert
scheduling and HTTP response classification.

Machine integers: `millis()` timestamps are 32-bit `unsigned long` on the
ESP8266; wrap-around subtraction is modelled by `usub32`.  Byte values are
`Nat` constrained to `< 256` where it matters.  Sensor distances (C `float`)
are modelled as exact rationals `ℚ`; the comparisons occurring in the code
involve only small integral values, where `float` arithmetic is exact.
-/

/-- Wrap-around subtraction of 32-bit unsigned integers, as performed by
`millis() - t` arithmetic on `unsigned long` values on the ESP8266. -/
def usub32 (a b : Nat) : Nat :=
  (a + 4294967296 - b) % 4294967296

theorem usub32_self (a : Nat) : usub32 a a = 0 := by
  unfold usub32; omega

theorem usub32_of_le (a b : Nat) (h1 : b ≤ a) (h2 : a < 4294967296) :
    usub32 a b = a - b := by
  unfold usub32; omega

/-! ## DER encoding of ECDSA signatures (`crypto.cpp`, `encodeSignatureToDER`) -/

/-- Number of leading zero bytes of `l`, capped at `cap`; embeds the C loop
`while (r_start < 31 && r[r_start] == 0) r_start++;` (with `cap = 31`). -/
def leadingZeros : Nat → List Nat → Nat
  | 0, _ => 0
  | _ + 1, [] => 0
  | cap + 1, b :: rest => if b = 0 then leadingZeros cap rest + 1 else 0

/-- The integer body after stripping leading zeros: the bytes
`r + r_start .. r + 31` copied by the `memcpy` in `encodeSignatureToDER`. -/
def derIntBody (half : List Nat) : List Nat :=
  half.drop (leadingZeros 31 half)

/-- Whether the `0x00` pad is inserted: `(r[r_start] & 0x80) != 0`. -/
def derIntPad (half : List Nat) : Bool :=
  (derIntBody half).headD 0 &&& 128 != 0

/-- The encoded integer content (pad byte, if any, followed by the stripped
value bytes); its length is the `r_len` / `s_len` of the C code. -/
def derInt (half : List Nat) : List Nat :=
  (if derIntPad half then [0] else []) ++ derIntBody half

/-- Embedding of `encodeSignatureToDER` from `crypto.cpp`: `raw` is the
64-byte raw signature buffer (`r` = first 32 bytes, `s` = last 32 bytes);
the result list is the sequence of bytes written to `der_sig` in index
order (positions `0 .. idx-1`). -/
def encodeSignatureToDER (raw : List Nat) : List Nat :=
  let r := raw.take 32
  let s := raw.drop 32
  let r_len := (derIntBody r).length + (if derIntPad r then 1 else 0)
  let s_len := (derIntBody s).length + (if derIntPad s then 1 else 0)
  let inner_len := 2 + r_len + 2 + s_len
  0x30 :: inner_len ::
    0x02 :: r_len :: ((if derIntPad r then [0] else []) ++ derIntBody r) ++
    (0x02 :: s_len :: ((if derIntPad s then [0] else []) ++ derIntBody s))

theorem leadingZeros_le (cap : Nat) (l : List Nat) : leadingZeros cap l ≤ cap := by
  induction cap generalizing l with
  | zero => simp [leadingZeros]
  | succ n ih =>
    cases l with
    | nil => simp [leadingZeros]
    | cons b rest =>
      simp only [leadingZeros]
      split
      · exact Nat.succ_le_succ (ih rest)
      · omega

/-- The stripped bytes really are zeros. -/
theorem leadingZeros_take (cap : Nat) (l : List Nat) :
    l.take (leadingZeros cap l) = List.replicate (leadingZeros cap l) 0 := by
  induction cap generalizing l with
  | zero => simp [leadingZeros]
  | succ n ih =>
    cases l with
    | nil => simp [leadingZeros]
    | cons b rest =>
      simp only [leadingZeros]
      split
      · next hb =>
        subst hb
        simpa [List.replicate_succ] using ih rest
      · simp

/-- When the cap is not reached, the first retained byte is nonzero
(stripping is maximal). -/
theorem leadingZeros_head (cap : Nat) (l : List Nat)
    (hcap : leadingZeros cap l < cap) (hlen : leadingZeros cap l < l.length) :
    (l.drop (leadingZeros cap l)).headD 0 ≠ 0 := by
  induction cap generalizing l with
  | zero => omega
  | succ n ih =>
    cases l with
    | nil => simp at hlen
    | cons b rest =>
      by_cases hb : b = 0
      · simp only [leadingZeros, if_pos hb] at hcap hlen ⊢
        simp only [List.drop_succ_cons]
        exact ih rest (by omega) (by simpa using hlen)
      · simp only [leadingZeros, if_neg hb, List.drop_zero, List.headD_cons]
        exact hb

theorem leadingZeros_zero_of_head (cap : Nat) (b : Nat) (l : List Nat)
    (hb : b ≠ 0) : leadingZeros (cap + 1) (b :: l) = 0 := by
  simp [leadingZeros, hb]

set_option maxRecDepth 4096 in
/-- Bit test used for the ASN.1 sign pad: for a byte, `(b & 0x80) != 0`
holds exactly when `128 ≤ b`. -/
theorem land128_iff : ∀ b < 256, ((b &&& 128 != 0) = true ↔ 128 ≤ b) := by
  decide

theorem derInt_length_eq (half : List Nat) :
    (derInt half).length =
      (derIntBody half).length + (if derIntPad half then 1 else 0) := by
  simp only [derInt, List.length_append]
  cases h : derIntPad half <;> simp [Nat.add_comm]

/-- All facts about the encoding of one 32-byte integer half. -/
theorem derInt_facts (half : List Nat) (h32 : half.length = 32)
    (hbh : ∀ b ∈ half, b < 256) :
    leadingZeros 31 half ≤ 31 ∧
    half.take (leadingZeros 31 half) = List.replicate (leadingZeros 31 half) 0 ∧
    derIntBody half ≠ [] ∧
    (leadingZeros 31 half < 31 → (derIntBody half).headD 0 ≠ 0) ∧
    (derIntPad half = true ↔ 128 ≤ (derIntBody half).headD 0) ∧
    derInt half = (if derIntPad half then [0] else []) ++ derIntBody half := by
  have hle := leadingZeros_le 31 half
  have hne : derIntBody half ≠ [] := by
    intro hnil
    have hlen0 : (derIntBody half).length = 0 := by rw [hnil]; rfl
    simp only [derIntBody, List.length_drop, h32] at hlen0
    omega
  refine ⟨hle, leadingZeros_take 31 half, hne, ?_, ?_, rfl⟩
  · intro hlt
    exact leadingZeros_head 31 half hlt (by omega)
  · obtain ⟨a, t, hat⟩ := List.exists_cons_of_ne_nil hne
    have ha : a ∈ half := by
      have : a ∈ half.drop (leadingZeros 31 half) := by
        rw [show half.drop (leadingZeros 31 half) = derIntBody half from rfl, hat]
        exact List.mem_cons_self a t
      exact List.drop_subset _ _ this
    have hpad : derIntPad half = ((derIntBody half).headD 0 &&& 128 != 0) := rfl
    rw [hpad, hat]
    simpa using land128_iff a (hbh a ha)

theorem encodeSignatureToDER_length (raw : List Nat) :
    (encodeSignatureToDER raw).length =
      6 + (derInt (raw.take 32)).length + (derInt (raw.drop 32)).length := by
  simp only [encodeSignatureToDER, derInt, List.length_append, List.length_cons,
    List.cons_append, List.append_assoc]
  cases derIntPad (raw.take 32) <;> cases derIntPad (raw.drop 32) <;> simp <;> omega

/-- C1: for every 64-byte raw ECDSA signature, `encodeSignatureToDER` emits
a SEQUENCE (tag `0x30`, one length byte `2+len(r_enc)+2+len(s_enc)`) of two
INTEGERs (tag `0x02`), each body being the 32 input bytes with leading zero
bytes stripped (at most 31, maximally, never the final byte) and one `0x00`
prepended exactly when the high bit of the first retained byte is set;
when both `r[0]` and `s[0]` have the high bit set the total length is 72
with both integers padded, and for all-`0x01` input it is 70. -/
theorem encodeSignatureToDER_spec (raw : List Nat) (hlen : raw.length = 64)
    (hb : ∀ b ∈ raw, b < 256) :
    encodeSignatureToDER raw =
      0x30 :: (2 + (derInt (raw.take 32)).length + 2 + (derInt (raw.drop 32)).length) ::
        (0x02 :: (derInt (raw.take 32)).length :: derInt (raw.take 32)) ++
        (0x02 :: (derInt (raw.drop 32)).length :: derInt (raw.drop 32)) ∧
    (∀ half ∈ [raw.take 32, raw.drop 32],
      leadingZeros 31 half ≤ 31 ∧
      half.take (leadingZeros 31 half) = List.replicate (leadingZeros 31 half) 0 ∧
      derIntBody half ≠ [] ∧
      (leadingZeros 31 half < 31 → (derIntBody half).headD 0 ≠ 0) ∧
      (derIntPad half = true ↔ 128 ≤ (derIntBody half).headD 0) ∧
      derInt half = (if derIntPad half then [0] else []) ++ derIntBody half) ∧
    (128 ≤ raw.headD 0 → 128 ≤ (raw.drop 32).headD 0 →
      (encodeSignatureToDER raw).length = 72 ∧
      derInt (raw.take 32) = 0 :: derIntBody (raw.take 32) ∧
      derInt (raw.drop 32) = 0 :: derIntBody (raw.drop 32)) ∧
    (raw = List.replicate 64 1 → (encodeSignatureToDER raw).length = 70) := by
  have htake32 : (raw.take 32).length = 32 := by simp [hlen]
  have hdrop32 : (raw.drop 32).length = 32 := by simp [hlen]
  have hbt : ∀ b ∈ raw.take 32, b < 256 := fun b hm => hb b (List.take_subset _ _ hm)
  have hbd : ∀ b ∈ raw.drop 32, b < 256 := fun b hm => hb b (List.drop_subset _ _ hm)
  have hfr := derInt_facts (raw.take 32) htake32 hbt
  have hfs := derInt_facts (raw.drop 32) hdrop32 hbd
  refine ⟨?_, ?_, ?_, ?_⟩
  · simp only [derInt_length_eq]
    simp only [encodeSignatureToDER, derInt, List.cons_append, List.append_assoc]
  · intro half hm
    rcases List.mem_pair.mp hm with rfl | rfl
    · exact derInt_facts _ htake32 hbt
    · exact derInt_facts _ hdrop32 hbd
  · intro hr hs
    obtain ⟨b0, rest, hraw⟩ : ∃ b0 rest, raw = b0 :: rest := by
      cases raw with
      | nil => simp at hlen
      | cons a t => exact ⟨a, t, rfl⟩
    have hb0 : raw.headD 0 = b0 := by rw [hraw]; rfl
    have hb0ne : b0 ≠ 0 := by omega
    have hlzr : leadingZeros 31 (raw.take 32) = 0 := by
      rw [hraw, List.take_succ_cons]
      exact leadingZeros_zero_of_head 30 b0 _ hb0ne
    obtain ⟨c0, srest, hs0⟩ := List.exists_cons_of_ne_nil
      (show raw.drop 32 ≠ [] by intro h; rw [h] at hdrop32; simp at hdrop32)
    have hc0 : (raw.drop 32).headD 0 = c0 := by rw [hs0]; rfl
    have hc0ne : c0 ≠ 0 := by omega
    have hlzs : leadingZeros 31 (raw.drop 32) = 0 := by
      rw [hs0]
      exact leadingZeros_zero_of_head 30 c0 _ hc0ne
    have hbodyr : derIntBody (raw.take 32) = raw.take 32 := by
      simp [derIntBody, hlzr]
    have hbodys : derIntBody (raw.drop 32) = raw.drop 32 := by
      simp [derIntBody, hlzs]
    have hheadr : (derIntBody (raw.take 32)).headD 0 = b0 := by
      rw [hbodyr, hraw, List.take_succ_cons]; rfl
    have hheads : (derIntBody (raw.drop 32)).headD 0 = c0 := by
      rw [hbodys, hs0]; rfl
    have hpadr : derIntPad (raw.take 32) = true := by
      rw [hfr.2.2.2.2.1, hheadr]; omega
    have hpads : derIntPad (raw.drop 32) = true := by
      rw [hfs.2.2.2.2.1, hheads]; omega
    have hdir : derInt (raw.take 32) = 0 :: derIntBody (raw.take 32) := by
      simp [derInt, hpadr]
    have hdis : derInt (raw.drop 32) = 0 :: derIntBody (raw.drop 32) := by
      simp [derInt, hpads]
    refine ⟨?_, hdir, hdis⟩
    rw [encodeSignatureToDER_length, hdir, hdis]
    simp [hbodyr, hbodys, htake32, hdrop32]
  · intro h
    subst h
    decide

/-- Witness for C1 at the all-`0x01` raw signature. -/
theorem encodeSignatureToDER_spec_witness :
    (List.replicate 64 (1:Nat)).length = 64 ∧
    (∀ b ∈ List.replicate 64 (1:Nat), b < 256) ∧
    (encodeSignatureToDER (List.replicate 64 1)).length = 70 :=
  ⟨by decide, by decide,
    (encodeSignatureToDER_spec (List.replicate 64 1) (by decide) (by decide)).2.2.2 rfl⟩

theorem derInt_length_bounds (half : List Nat) (h32 : half.length = 32) :
    1 ≤ (derInt half).length ∧ (derInt half).length ≤ 33 := by
  have hle := leadingZeros_le 31 half
  rw [derInt_length_eq]
  simp only [derIntBody, List.length_drop, h32]
  cases derIntPad half <;> simp <;> omega

/-- C10: `encodeSignatureToDER` is total on every 64-byte input (all-zero
halves included): the returned length lies in `[8, 72]`, every byte write
(position `0 .. len-1`) lands inside the 72-byte `der_signature` buffer of
`signMessage`, and an all-zero integer half encodes as `02 01 00` with no
sign pad. -/
theorem encodeSignatureToDER_total_bounds (raw : List Nat) (hlen : raw.length = 64) :
    8 ≤ (encodeSignatureToDER raw).length ∧
    (encodeSignatureToDER raw).length ≤ 72 ∧
    (∀ i, i < (encodeSignatureToDER raw).length → i < 72) ∧
    (raw.take 32 = List.replicate 32 0 →
      derIntPad (raw.take 32) = false ∧
      0x02 :: (derInt (raw.take 32)).length :: derInt (raw.take 32) = [2, 1, 0]) := by
  have htake32 : (raw.take 32).length = 32 := by simp [hlen]
  have hdrop32 : (raw.drop 32).length = 32 := by simp [hlen]
  have h1 := derInt_length_bounds (raw.take 32) htake32
  have h2 := derInt_length_bounds (raw.drop 32) hdrop32
  have hL := encodeSignatureToDER_length raw
  refine ⟨by omega, by omega, fun i hi => by omega, ?_⟩
  intro hz
  rw [hz]
  decide

/-- Witness for C10 at the all-zero raw signature. -/
theorem encodeSignatureToDER_total_bounds_witness :
    (List.replicate 64 (0:Nat)).length = 64 ∧
    8 ≤ (encodeSignatureToDER (List.replicate 64 0)).length ∧
    (encodeSignatureToDER (List.replicate 64 0)).length ≤ 72 ∧
    derIntPad ((List.replicate 64 (0:Nat)).take 32) = false :=
  ⟨by decide,
    (encodeSignatureToDER_total_bounds (List.replicate 64 0) (by decide)).1,
    (encodeSignatureToDER_total_bounds (List.replicate 64 0) (by decide)).2.1,
    ((encodeSignatureToDER_total_bounds (List.replicate 64 0) (by decide)).2.2.2
      (by decide)).1⟩

/-! ## Base64 encoding (`crypto.cpp`, `base64Encode`) -/

/-- The alphabet table `base64_chars` of `crypto.cpp` (RFC 4648 standard). -/
def base64_chars : List Char :=
  "ABCDEFGHIJKLMNOPQRSTUVWXYZabcdefghijklmnopqrstuvwxyz0123456789+/".toList

/-- Table lookup `base64_chars[k]` (all indices used are `< 64`). -/
def b64chr (k : Nat) : Char :=
  base64_chars.getD k 'A'

/-- Embedding of `base64Encode` from `crypto.cpp`: the loop consumes the
input in 3-byte groups; a trailing group of `i` bytes (zero-filled to 3)
emits `i + 1` alphabet characters followed by `3 - i` pad characters. -/
def base64Encode : List Nat → List Char
  | a :: b :: c :: rest =>
      b64chr ((a &&& 0xfc) >>> 2) ::
      b64chr (((a &&& 0x03) <<< 4) + ((b &&& 0xf0) >>> 4)) ::
      b64chr (((b &&& 0x0f) <<< 2) + ((c &&& 0xc0) >>> 6)) ::
      b64chr (c &&& 0x3f) :: base64Encode rest
  | [a, b] =>
      [b64chr ((a &&& 0xfc) >>> 2),
       b64chr (((a &&& 0x03) <<< 4) + ((b &&& 0xf0) >>> 4)),
       b64chr (((b &&& 0x0f) <<< 2) + ((0 &&& 0xc0) >>> 6)),
       '=']
  | [a] =>
      [b64chr ((a &&& 0xfc) >>> 2),
       b64chr (((a &&& 0x03) <<< 4) + ((0 &&& 0xf0) >>> 4)),
       '=', '=']
  | [] => []

/-- Index of a character in the alphabet table. -/
def b64Index (c : Char) : Nat :=
  List.indexOf c base64_chars

/-- Reference RFC 4648 base64 decoder (not part of the source; used only to
state the round-trip property of the claim): consumes 4-character groups,
a group ending in `==` yields one byte, in `=` two bytes, else three. -/
def base64DecodeRef : List Char → List Nat
  | e0 :: e1 :: e2 :: e3 :: rest =>
      let i0 := b64Index e0
      let i1 := b64Index e1
      if e2 = '=' then [i0 * 4 + i1 / 16]
      else
        let i2 := b64Index e2
        if e3 = '=' then [i0 * 4 + i1 / 16, (i1 % 16) * 16 + i2 / 4]
        else
          [i0 * 4 + i1 / 16, (i1 % 16) * 16 + i2 / 4,
            (i2 % 4) * 64 + b64Index e3] ++ base64DecodeRef rest
  | _ => []

set_option maxRecDepth 8192 in
theorem b64Index_b64chr : ∀ k < 64, b64Index (b64chr k) = k := by
  decide

set_option maxRecDepth 8192 in
theorem b64chr_ne_pad : ∀ k < 64, b64chr k ≠ '=' := by
  decide

set_option maxRecDepth 8192 in
theorem b64chr_mem : ∀ k < 64, b64chr k ∈ base64_chars := by
  decide

set_option maxRecDepth 4096 in
theorem b64_hi6 : ∀ a < 256, (a &&& 0xfc) >>> 2 = a / 4 := by
  decide

set_option maxRecDepth 4096 in
theorem b64_lo2 : ∀ a < 256, (a &&& 0x03) <<< 4 = a % 4 * 16 := by
  decide

set_option maxRecDepth 4096 in
theorem b64_hi4 : ∀ b < 256, (b &&& 0xf0) >>> 4 = b / 16 := by
  decide

set_option maxRecDepth 4096 in
theorem b64_lo4 : ∀ b < 256, (b &&& 0x0f) <<< 2 = b % 16 * 4 := by
  decide

set_option maxRecDepth 4096 in
theorem b64_hi2 : ∀ c < 256, (c &&& 0xc0) >>> 6 = c / 64 := by
  decide

set_option maxRecDepth 4096 in
theorem b64_lo6 : ∀ c < 256, c &&& 0x3f = c % 64 := by
  decide

theorem base64_roundtrip_aux (n : Nat) :
    ∀ l : List Nat, l.length ≤ n → (∀ b ∈ l, b < 256) →
      base64DecodeRef (base64Encode l) = l := by
  induction n with
  | zero =>
    intro l hl _
    have : l = [] := List.eq_nil_of_length_eq_zero (Nat.le_zero.mp hl)
    subst this; rfl
  | succ n ih =>
    intro l hl hbl
    rcases l with _ | ⟨a, _ | ⟨b, _ | ⟨c, rest⟩⟩⟩
    · rfl
    · have ha : a < 256 := hbl a (by simp)
      simp only [base64Encode]
      rw [b64_hi6 a ha, b64_lo2 a ha, b64_hi4 0 (by omega)]
      simp only [base64DecodeRef]
      rw [b64Index_b64chr _ (by omega), b64Index_b64chr _ (by omega)]
      simp only [if_true, List.cons.injEq, and_true]
      omega
    · have ha : a < 256 := hbl a (by simp)
      have hb : b < 256 := hbl b (by simp)
      simp only [base64Encode]
      rw [b64_hi6 a ha, b64_lo2 a ha, b64_hi4 b hb, b64_lo4 b hb, b64_hi2 0 (by omega)]
      simp only [base64DecodeRef]
      rw [if_neg (b64chr_ne_pad _ (by omega))]
      rw [b64Index_b64chr _ (by omega), b64Index_b64chr _ (by omega),
        b64Index_b64chr _ (by omega)]
      simp only [if_true, List.cons.injEq, and_true]
      exact ⟨by omega, by omega⟩
    · have ha : a < 256 := hbl a (by simp)
      have hb : b < 256 := hbl b (by simp)
      have hc : c < 256 := hbl c (by simp)
      have hrest : ∀ x ∈ rest, x < 256 := fun x hx => hbl x (by simp [hx])
      have hlen : rest.length ≤ n := by simp only [List.length_cons] at hl; omega
      have ihr := ih rest hlen hrest
      simp only [base64Encode]
      rw [b64_hi6 a ha, b64_lo2 a ha, b64_hi4 b hb, b64_lo4 b hb,
        b64_hi2 c hc, b64_lo6 c hc]
      simp only [base64DecodeRef]
      rw [if_neg (b64chr_ne_pad _ (by omega)), if_neg (b64chr_ne_pad _ (by omega))]
      rw [b64Index_b64chr _ (by omega), b64Index_b64chr _ (by omega),
        b64Index_b64chr _ (by omega), b64Index_b64chr _ (by omega)]
      rw [ihr]
      simp only [List.cons_append, List.nil_append, List.cons.injEq, and_true]
      exact ⟨by omega, by omega, by omega⟩

/-- Decoding an encoding with the reference decoder reproduces any byte
input exactly. -/
theorem base64_roundtrip (l : List Nat) (hb : ∀ b ∈ l, b < 256) :
    base64DecodeRef (base64Encode l) = l :=
  base64_roundtrip_aux l.length l le_rfl hb

/-- C9 counterexample: encoding a 0-byte input yields the empty string of
length 0, not a length-4 block ending in `==` as the claim asserts for
0-byte inputs. -/
theorem base64Encode_nil_cex :
    base64Encode [] = [] ∧ (base64Encode []).length ≠ 4 :=
  ⟨rfl, by decide⟩

/-- C9 (amended): `base64Encode` draws its output from the RFC 4648
standard alphabet with `=` padding; inputs of 1, 2 and 3 bytes produce
outputs of length 4 ending in `==`, `=` and no padding respectively, and
the reference decoder reproduces each input exactly (a 0-byte input
produces the empty output, not a padded block). -/
theorem base64Encode_padding_roundtrip (a b c : Nat)
    (ha : a < 256) (hb : b < 256) (hc : c < 256) :
    ((base64Encode [a]).length = 4 ∧
     (base64Encode [a]).drop 2 = ['=', '='] ∧
     (∀ ch ∈ (base64Encode [a]).take 2, ch ∈ base64_chars) ∧
     base64DecodeRef (base64Encode [a]) = [a]) ∧
    ((base64Encode [a, b]).length = 4 ∧
     (base64Encode [a, b]).drop 3 = ['='] ∧
     (∀ ch ∈ (base64Encode [a, b]).take 3, ch ∈ base64_chars) ∧
     base64DecodeRef (base64Encode [a, b]) = [a, b]) ∧
    ((base64Encode [a, b, c]).length = 4 ∧
     (∀ ch ∈ base64Encode [a, b, c], ch ∈ base64_chars) ∧
     base64DecodeRef (base64Encode [a, b, c]) = [a, b, c]) ∧
    base64Encode [] = [] := by
  have hmem : ∀ k, k < 64 → b64chr k ∈ base64_chars := b64chr_mem
  refine ⟨⟨rfl, rfl, ?_, ?_⟩, ⟨rfl, rfl, ?_, ?_⟩, ⟨rfl, ?_, ?_⟩, rfl⟩
  · intro ch hch
    simp only [base64Encode, List.take_succ_cons, List.take_zero, List.mem_cons,
      List.not_mem_nil, or_false] at hch
    rcases hch with rfl | rfl
    · exact hmem _ (by rw [b64_hi6 a ha]; omega)
    · exact hmem _ (by rw [b64_lo2 a ha, b64_hi4 0 (by omega)]; omega)
  · exact base64_roundtrip [a] (by intro x hx; simp at hx; omega)
  · intro ch hch
    simp only [base64Encode, List.take_succ_cons, List.take_zero, List.mem_cons,
      List.not_mem_nil, or_false] at hch
    rcases hch with rfl | rfl | rfl
    · exact hmem _ (by rw [b64_hi6 a ha]; omega)
    · exact hmem _ (by rw [b64_lo2 a ha, b64_hi4 b hb]; omega)
    · exact hmem _ (by rw [b64_lo4 b hb, b64_hi2 0 (by omega)]; omega)
  · exact base64_roundtrip [a, b] (by intro x hx; simp at hx; rcases hx with rfl | rfl <;> omega)
  · intro ch hch
    simp only [base64Encode, List.mem_cons, List.not_mem_nil, or_false] at hch
    rcases hch with rfl | rfl | rfl | rfl
    · exact hmem _ (by rw [b64_hi6 a ha]; omega)
    · exact hmem _ (by rw [b64_lo2 a ha, b64_hi4 b hb]; omega)
    · exact hmem _ (by rw [b64_lo4 b hb, b64_hi2 c hc]; omega)
    · exact hmem _ (by rw [b64_lo6 c hc]; omega)
  · exact base64_roundtrip [a, b, c]
      (by intro x hx; simp at hx; rcases hx with rfl | rfl | rfl <;> omega)

/-- Witness for C9 (amended) at bytes `0`, `1`, `255`. -/
theorem base64Encode_padding_roundtrip_witness :
    (0:Nat) < 256 ∧ (1:Nat) < 256 ∧ (255:Nat) < 256 ∧
    base64DecodeRef (base64Encode [0, 1, 255]) = [0, 1, 255] ∧
    (base64Encode [0]).drop 2 = ['=', '='] :=
  ⟨by decide, by decide, by decide,
    (base64Encode_padding_roundtrip 0 1 255 (by decide) (by decide) (by decide)).2.2.1.2.2,
    (base64Encode_padding_roundtrip 0 1 255 (by decide) (by decide) (by decide)).1.2.1⟩

/-! ## HTTP response classification and heartbeat scheduling
(`messaging.cpp` of both templates) -/

/-- Observable status-indicator effect of processing one HTTP response
(`showSuccessPattern` / `showErrorPattern(n)` / no indicator call). -/
inductive LedPattern where
  | success
  | error (blinks : Nat)
  | none
deriving DecidableEq

/-- Embedding of `handleHTTPSuccess` (P256 `messaging.cpp`): returns true
and pulses the success pattern only for 200 and 201; any other code falls
through returning false with no indicator. -/
def handleHTTPSuccess (httpCode : Int) : Bool × LedPattern :=
  if httpCode = 200 ∨ httpCode = 201 then (true, LedPattern.success)
  else (false, LedPattern.none)

/-- Embedding of `handleHTTPClientError` (P256 `messaging.cpp`). -/
def handleHTTPClientError (httpCode : Int) : LedPattern :=
  if httpCode = 400 then LedPattern.error 3
  else if httpCode = 401 ∨ httpCode = 403 then LedPattern.error 4
  else LedPattern.error 6

/-- Embedding of the response-processing branch of `sendHTTPRequest`
(P256 `messaging.cpp`): `httpResponseCode` is the value returned by
`http.POST` (negative on transport failure); the result is the returned
`success` flag and the indicator pattern shown. -/
def classifyHTTPResponse (httpResponseCode : Int) : Bool × LedPattern :=
  if 0 < httpResponseCode then
    if 200 ≤ httpResponseCode ∧ httpResponseCode < 300 then
      handleHTTPSuccess httpResponseCode
    else if 400 ≤ httpResponseCode ∧ httpResponseCode < 500 then
      (false, handleHTTPClientError httpResponseCode)
    else if 500 ≤ httpResponseCode then (false, LedPattern.error 5)
    else (false, LedPattern.error 6)
  else (false, LedPattern.error 10)

/-- Embedding of the response-processing branch of `sendHTTPRequest`
(C3DS `messaging.cpp`), which tests codes individually. -/
def classifyHTTPResponse_C3DS (httpResponseCode : Int) : Bool × LedPattern :=
  if 0 < httpResponseCode then
    if httpResponseCode = 200 ∨ httpResponseCode = 201 then
      (true, LedPattern.success)
    else if httpResponseCode = 400 then (false, LedPattern.error 3)
    else if httpResponseCode = 401 ∨ httpResponseCode = 403 then
      (false, LedPattern.error 4)
    else if 500 ≤ httpResponseCode then (false, LedPattern.error 5)
    else (false, LedPattern.error 6)
  else (false, LedPattern.error 10)

/-- C2 counterexample: HTTP 204 is a 2xx status, yet neither template
classifies it as `Success`: the P256 template returns false with no
indicator, the C3DS template returns false with the unexpected-response
error pattern. -/
theorem classifyHTTPResponse_204_cex :
    (200 ≤ (204 : Int) ∧ (204 : Int) ≤ 299) ∧
    classifyHTTPResponse 204 = (false, LedPattern.none) ∧
    classifyHTTPResponse_C3DS 204 = (false, LedPattern.error 6) := by
  refine ⟨by decide, ?_, ?_⟩ <;> decide

/-- C2 (amended): among 2xx statuses, only 200 and 201 are classified as
`Success` (request reported successful and success pattern shown); every
other 2xx code yields `false` — with no indicator in the P256 template and
with the unexpected-response pattern `error 6` in the C3DS template. -/
theorem classifyHTTPResponse_2xx (c : Int) (h1 : 200 ≤ c) (h2 : c ≤ 299) :
    (classifyHTTPResponse c = (true, LedPattern.success) ↔ (c = 200 ∨ c = 201)) ∧
    (classifyHTTPResponse_C3DS c = (true, LedPattern.success) ↔ (c = 200 ∨ c = 201)) ∧
    (c ≠ 200 → c ≠ 201 →
      classifyHTTPResponse c = (false, LedPattern.none) ∧
      classifyHTTPResponse_C3DS c = (false, LedPattern.error 6)) := by
  unfold classifyHTTPResponse classifyHTTPResponse_C3DS handleHTTPSuccess
  split_ifs <;> simp_all <;> omega

/-- Witness for C2 (amended) at HTTP 204. -/
theorem classifyHTTPResponse_2xx_witness :
    200 ≤ (204 : Int) ∧ (204 : Int) ≤ 299 ∧
    classifyHTTPResponse 204 = (false, LedPattern.none) ∧
    classifyHTTPResponse_C3DS 204 = (false, LedPattern.error 6) :=
  ⟨by decide, by decide,
    ((classifyHTTPResponse_2xx 204 (by decide) (by decide)).2.2
      (by decide) (by decide)).1,
    ((classifyHTTPResponse_2xx 204 (by decide) (by decide)).2.2
      (by decide) (by decide)).2⟩

/-- `HEARTBEAT_INTERVAL` from `config.h` (both templates): 20000 ms. -/
def HEARTBEAT_INTERVAL : Nat := 20000

/-- The messaging-module state of `messaging.cpp`: the `lastHeartbeatTime`
timer and the `messagingReady` flag. -/
structure MessagingState where
  lastHeartbeatTime : Nat
  messagingReady : Bool
deriving DecidableEq

/-- Embedding of `sendHeartbeat` (identical control flow in both
templates).  External collaborators are passed as values: `wifiConnected`
(`isWiFiConnected()`), `signature` (the string returned by `signMessage`,
empty on signing failure) and `httpSuccess` (the boolean returned by
`sendHTTPRequest`).  Returns the function result and the updated state:
`lastHeartbeatTime = millis()` is assigned only after the HTTP request,
and the three earlier failure paths return without touching it. -/
def sendHeartbeat (st : MessagingState) (wifiConnected : Bool)
    (signature : List Char) (httpSuccess : Bool) (now : Nat) :
    Bool × MessagingState :=
  if st.messagingReady = false then (false, st)
  else if wifiConnected = false then (false, st)
  else if signature.length = 0 then (false, st)
  else (httpSuccess, { st with lastHeartbeatTime := now })

/-- Embedding of `isHeartbeatDue`:
`(millis() - lastHeartbeatTime) >= HEARTBEAT_INTERVAL`. -/
def isHeartbeatDue (st : MessagingState) (now : Nat) : Bool :=
  HEARTBEAT_INTERVAL ≤ usub32 now st.lastHeartbeatTime

/-- C3 counterexample: a `sendHeartbeat` attempt whose signing step fails
(empty signature) returns before `lastHeartbeatTime = millis()`, leaving
the timer unchanged, so `isHeartbeatDue` immediately afterwards is still
true (state: last sent at 0, clock at 20000 ms). -/
theorem sendHeartbeat_signfail_cex :
    sendHeartbeat ⟨0, true⟩ true [] false 20000 = (false, ⟨0, true⟩) ∧
    isHeartbeatDue ⟨0, true⟩ 20000 = true := by
  refine ⟨?_, ?_⟩ <;> decide

/-- C3 (amended): `sendHeartbeat` updates `lastHeartbeatTime` to the
current clock — making `isHeartbeatDue` false immediately afterwards — on
every attempt that reaches the HTTP request, whatever its outcome (2xx,
non-2xx, or transport failure, all summarised by `httpSuccess`); but when
the signing step fails (empty signature), or messaging is not ready, or
WiFi is down, it returns early and the timer state is unchanged. -/
theorem sendHeartbeat_markSent (st : MessagingState) (sig : List Char)
    (httpSuccess : Bool) (now : Nat)
    (hready : st.messagingReady = true) (hsig : sig.length ≠ 0) :
    (sendHeartbeat st true sig httpSuccess now).2.lastHeartbeatTime = now ∧
    isHeartbeatDue (sendHeartbeat st true sig httpSuccess now).2 now = false ∧
    (sendHeartbeat st true [] httpSuccess now).2 = st ∧
    (∀ wifi : Bool, (sendHeartbeat ⟨st.lastHeartbeatTime, false⟩ wifi sig httpSuccess now).2 =
      ⟨st.lastHeartbeatTime, false⟩) ∧
    (sendHeartbeat st false sig httpSuccess now).2 = st := by
  have hstep : sendHeartbeat st true sig httpSuccess now =
      (httpSuccess, { st with lastHeartbeatTime := now }) := by
    unfold sendHeartbeat
    rw [if_neg (by simp [hready]), if_neg (by simp), if_neg hsig]
  refine ⟨by rw [hstep], ?_, ?_, ?_, ?_⟩
  · rw [hstep]
    simp only [isHeartbeatDue, usub32_self]
    decide
  · simp [sendHeartbeat, hready]
  · intro wifi
    simp [sendHeartbeat]
  · simp [sendHeartbeat, hready]

/-- Witness for C3 (amended): ready state, non-empty signature, last sent
at 0, clock 20000. -/
theorem sendHeartbeat_markSent_witness :
    (MessagingState.mk 0 true).messagingReady = true ∧
    ([' '] : List Char).length ≠ 0 ∧
    (sendHeartbeat ⟨0, true⟩ true [' '] false 20000).2.lastHeartbeatTime = 20000 ∧
    isHeartbeatDue (sendHeartbeat ⟨0, true⟩ true [' '] false 20000).2 20000 = false :=
  ⟨rfl, by decide,
    (sendHeartbeat_markSent ⟨0, true⟩ [' '] false 20000 rfl (by decide)).1,
    (sendHeartbeat_markSent ⟨0, true⟩ [' '] false 20000 rfl (by decide)).2.1⟩

/-! ## Hysteresis detection state machine (P256 `hardware.cpp`)

Distances are C `float`; they are modelled as exact rationals.  All
comparisons performed by the code involve small integral thresholds
(25, 27) where `float` comparison is exact. -/

/-- `DETECTION_THRESHOLD_CM` from P256 `config.h`. -/
def DETECTION_THRESHOLD_CM : ℚ := 25

/-- `DETECTION_HYSTERESIS_CM` from P256 `config.h`. -/
def DETECTION_HYSTERESIS_CM : ℚ := 2

/-- `CONSECUTIVE_READINGS_REQUIRED` from P256 `config.h`. -/
def CONSECUTIVE_READINGS_REQUIRED : Nat := 2

/-- `ALERT_INTERVAL` from P256 `config.h`: 10000 ms. -/
def ALERT_INTERVAL : Nat := 10000

/-- The detection-related module state of P256 `hardware.cpp`
(`detectionActive`, `consecutiveValidReadings`, the static
`consecutiveOutOfRange` of `updateDetectionStateMachine`,
`firstDetectionTime`, `lastAlertTime`).  The C counters are `int` but are
only ever incremented or reset to 0, so `Nat` is faithful.  The
`currentDistance` / `previousDistance` floats and the timestamp string are
not modelled: no claim depends on them. -/
structure DetectState where
  detectionActive : Bool
  consecutiveValidReadings : Nat
  consecutiveOutOfRange : Nat
  firstDetectionTime : Nat
  lastAlertTime : Nat
deriving DecidableEq

/-- Embedding of `isDistanceInDetectionRange`: upper (entry + hysteresis)
threshold while detecting, entry threshold while idle. -/
def isDistanceInDetectionRange (st : DetectState) (distance : ℚ) : Bool :=
  if st.detectionActive then
    decide (distance ≤ DETECTION_THRESHOLD_CM + DETECTION_HYSTERESIS_CM)
  else
    decide (distance ≤ DETECTION_THRESHOLD_CM)

/-- Embedding of `transitionToDetecting`: activates detection, records the
first-detection time, forces the alert timer (`lastAlertTime = 0`) and
clears the in-range counter.  The out-of-range counter is not touched
(the C function returns immediately afterwards). -/
def transitionToDetecting (st : DetectState) (now : Nat) : DetectState :=
  { st with
    detectionActive := true, firstDetectionTime := now,
    lastAlertTime := 0, consecutiveValidReadings := 0 }

/-- Embedding of `transitionToIdle`: deactivates detection only. -/
def transitionToIdle (st : DetectState) : DetectState :=
  { st with detectionActive := false }

/-- Embedding of `updateDetectionStateMachine` (the state passed in
already has the in-range counter updated by `pollSensor`). -/
def updateDetectionStateMachine (st : DetectState) (readingInRange : Bool)
    (now : Nat) : DetectState :=
  if st.detectionActive = false ∧
      CONSECUTIVE_READINGS_REQUIRED ≤ st.consecutiveValidReadings then
    transitionToDetecting st now
  else if st.detectionActive = true ∧ readingInRange = false ∧
      st.consecutiveValidReadings = 0 then
    if CONSECUTIVE_READINGS_REQUIRED ≤ st.consecutiveOutOfRange + 1 then
      { transitionToIdle st with consecutiveOutOfRange := 0 }
    else
      { st with consecutiveOutOfRange := st.consecutiveOutOfRange + 1 }
  else
    { st with consecutiveOutOfRange := 0 }

/-- Embedding of `pollSensor`: `distance` is the value returned by
`measureDistance` (negative exactly on timeout / out-of-physical-range);
an invalid reading only clears the in-range counter and returns before
the state machine update. -/
def pollSensor (st : DetectState) (distance : ℚ) (now : Nat) : DetectState :=
  if distance < 0 then { st with consecutiveValidReadings := 0 }
  else
    let readingInRange := isDistanceInDetectionRange st distance
    let st1 := { st with consecutiveValidReadings :=
      if readingInRange then st.consecutiveValidReadings + 1 else 0 }
    updateDetectionStateMachine st1 readingInRange now

/-- Iterated sensor polls (readings fed in order; the clock value is only
recorded on an entry transition, so a single `now` suffices). -/
def pollSensorSeq (st : DetectState) (readings : List ℚ) (now : Nat) : DetectState :=
  readings.foldl (fun s d => pollSensor s d now) st

/-- Embedding of `isAlertDue`: false while idle, otherwise
`(millis() - lastAlertTime) >= ALERT_INTERVAL`. -/
def isAlertDue (st : DetectState) (now : Nat) : Bool :=
  if st.detectionActive = false then false
  else decide (ALERT_INTERVAL ≤ usub32 now st.lastAlertTime)

theorem pollSensor_invalid (st : DetectState) (d : ℚ) (now : Nat) (hd : d < 0) :
    pollSensor st d now = { st with consecutiveValidReadings := 0 } := by
  simp [pollSensor, hd]

theorem inRange_idle_true (st : DetectState) (d : ℚ)
    (hact : st.detectionActive = false) (hd : d ≤ 25) :
    isDistanceInDetectionRange st d = true := by
  simp [isDistanceInDetectionRange, hact, DETECTION_THRESHOLD_CM]
  exact hd

theorem inRange_active_true (st : DetectState) (d : ℚ)
    (hact : st.detectionActive = true) (hd : d ≤ 25) :
    isDistanceInDetectionRange st d = true := by
  simp [isDistanceInDetectionRange, hact, DETECTION_THRESHOLD_CM,
    DETECTION_HYSTERESIS_CM]
  linarith

theorem inRange_idle_false (st : DetectState) (d : ℚ)
    (hact : st.detectionActive = false) (hd : 25 < d) :
    isDistanceInDetectionRange st d = false := by
  simp [isDistanceInDetectionRange, hact, DETECTION_THRESHOLD_CM]
  linarith

theorem inRange_active_false (st : DetectState) (d : ℚ)
    (hact : st.detectionActive = true) (hd : 27 < d) :
    isDistanceInDetectionRange st d = false := by
  simp [isDistanceInDetectionRange, hact, DETECTION_THRESHOLD_CM,
    DETECTION_HYSTERESIS_CM]
  linarith

/-- Valid in-range reading while idle, counter still below the threshold:
only the counters change. -/
theorem pollSensor_idle_low (st : DetectState) (d : ℚ) (now : Nat)
    (hact : st.detectionActive = false) (hd0 : 0 ≤ d) (hd : d ≤ 25)
    (hcnt : st.consecutiveValidReadings + 1 < CONSECUTIVE_READINGS_REQUIRED) :
    pollSensor st d now =
      { st with
        consecutiveValidReadings := st.consecutiveValidReadings + 1,
        consecutiveOutOfRange := 0 } := by
  have hin := inRange_idle_true st d hact hd
  simp only [pollSensor, if_neg (not_lt.mpr hd0), hin, if_pos rfl,
    updateDetectionStateMachine]
  rw [if_neg (by simp [hact]; omega), if_neg (by simp [hact])]
  simp

/-- Valid in-range reading while idle that completes the required count:
the machine enters Detecting, forcing the alert timer. -/
theorem pollSensor_idle_enter (st : DetectState) (d : ℚ) (now : Nat)
    (hact : st.detectionActive = false) (hd0 : 0 ≤ d) (hd : d ≤ 25)
    (hcnt : CONSECUTIVE_READINGS_REQUIRED ≤ st.consecutiveValidReadings + 1) :
    pollSensor st d now =
      { st with
        detectionActive := true, consecutiveValidReadings := 0,
        firstDetectionTime := now, lastAlertTime := 0 } := by
  have hin := inRange_idle_true st d hact hd
  simp only [pollSensor, if_neg (not_lt.mpr hd0), hin, if_pos rfl,
    updateDetectionStateMachine]
  rw [if_pos (by simp [hact]; omega)]
  rfl

/-- Valid out-of-range reading while idle clears both counters. -/
theorem pollSensor_idle_out (st : DetectState) (d : ℚ) (now : Nat)
    (hact : st.detectionActive = false) (hd0 : 0 ≤ d) (hd : 25 < d) :
    pollSensor st d now =
      { st with consecutiveValidReadings := 0, consecutiveOutOfRange := 0 } := by
  have hin := inRange_idle_false st d hact hd
  simp only [pollSensor, if_neg (not_lt.mpr hd0), hin, Bool.false_eq_true,
    if_neg, updateDetectionStateMachine]
  rw [if_neg (by simp [hact, CONSECUTIVE_READINGS_REQUIRED]),
    if_neg (by simp [hact])]
  simp

/-- Valid in-range reading while detecting keeps detecting and clears the
out-of-range counter. -/
theorem pollSensor_active_in (st : DetectState) (d : ℚ) (now : Nat)
    (hact : st.detectionActive = true) (hd0 : 0 ≤ d) (hd : d ≤ 25) :
    pollSensor st d now =
      { st with
        consecutiveValidReadings := st.consecutiveValidReadings + 1,
        consecutiveOutOfRange := 0 } := by
  have hin := inRange_active_true st d hact hd
  simp only [pollSensor, if_neg (not_lt.mpr hd0), hin, if_pos rfl,
    updateDetectionStateMachine]
  rw [if_neg (by simp [hact]), if_neg (by simp)]
  simp

/-- Valid out-of-range reading while detecting, below the exit count:
increments the out-of-range counter only. -/
theorem pollSensor_active_out_low (st : DetectState) (d : ℚ) (now : Nat)
    (hact : st.detectionActive = true) (hd0 : 0 ≤ d) (hd : 27 < d)
    (hcnt : st.consecutiveOutOfRange + 1 < CONSECUTIVE_READINGS_REQUIRED) :
    pollSensor st d now =
      { st with
        consecutiveValidReadings := 0,
        consecutiveOutOfRange := st.consecutiveOutOfRange + 1 } := by
  have hin := inRange_active_false st d hact hd
  simp only [pollSensor, if_neg (not_lt.mpr hd0), hin, Bool.false_eq_true,
    if_neg, updateDetectionStateMachine]
  rw [if_neg (by simp [hact]), if_pos (by simp [hact]), if_neg (by omega)]
  simp

/-- Valid out-of-range reading while detecting that completes the exit
count: the machine returns to Idle and clears the out-of-range counter. -/
theorem pollSensor_active_out_exit (st : DetectState) (d : ℚ) (now : Nat)
    (hact : st.detectionActive = true) (hd0 : 0 ≤ d) (hd : 27 < d)
    (hcnt : CONSECUTIVE_READINGS_REQUIRED ≤ st.consecutiveOutOfRange + 1) :
    pollSensor st d now =
      { st with
        detectionActive := false, consecutiveValidReadings := 0,
        consecutiveOutOfRange := 0 } := by
  have hin := inRange_active_false st d hact hd
  simp only [pollSensor, if_neg (not_lt.mpr hd0), hin, Bool.false_eq_true,
    if_neg, updateDetectionStateMachine]
  rw [if_neg (by simp [hact]), if_pos (by simp [hact]), if_pos hcnt]
  rfl

/-- C4 counterexample: entering Detecting at clock 5000 ms resets
`lastAlertTime` to the sentinel 0, but the immediately following
`isAlertDue` check computes `5000 - 0 = 5000 < ALERT_INTERVAL` and returns
false — the sentinel does not guarantee due-ness for every clock value. -/
theorem transitionToDetecting_alert_cex :
    (transitionToDetecting ⟨false, 2, 0, 0, 0⟩ 5000).lastAlertTime = 0 ∧
    isAlertDue (transitionToDetecting ⟨false, 2, 0, 0, 0⟩ 5000) 5000 = false := by
  refine ⟨rfl, ?_⟩
  decide

/-- C4 (amended): entering Detecting resets `lastAlertTime` to the
sentinel 0 and activates detection, and the immediately following
`isAlertDue` check returns true exactly when the clock (reduced mod 2^32)
has reached `ALERT_INTERVAL`; for clock values below `ALERT_INTERVAL`
(the first 10 s after boot, or just after a wrap) it returns false. -/
theorem transitionToDetecting_alert_sentinel (st : DetectState) (now now2 : Nat) :
    (transitionToDetecting st now).lastAlertTime = 0 ∧
    (transitionToDetecting st now).detectionActive = true ∧
    (isAlertDue (transitionToDetecting st now) now2 = true ↔
      ALERT_INTERVAL ≤ now2 % 4294967296) := by
  refine ⟨rfl, rfl, ?_⟩
  have h0 : usub32 now2 0 = now2 % 4294967296 := by
    unfold usub32; omega
  simp [isAlertDue, transitionToDetecting, h0]

/-- While detecting, a valid in-range reading stream keeps the machine in
Detecting. -/
theorem pollSensorSeq_detecting_stable (ds : List ℚ) :
    ∀ (st : DetectState) (now : Nat), st.detectionActive = true →
      (∀ d ∈ ds, 0 ≤ d ∧ d ≤ 25) →
      (pollSensorSeq st ds now).detectionActive = true := by
  induction ds with
  | nil =>
    intro st now hact _
    simpa [pollSensorSeq] using hact
  | cons d rest ih =>
    intro st now hact hin
    have hd := hin d (by simp)
    simp only [pollSensorSeq, List.foldl_cons]
    rw [show pollSensor st d now = _ from pollSensor_active_in st d now hact hd.1 hd.2]
    exact ih _ now (by simp [hact]) (fun x hx => hin x (by simp [hx]))

/-- C6: from Idle with a cleared counter, a stream of valid in-range
readings (each at most the 25 cm entry threshold) drives the machine to
Detecting exactly when `CONSECUTIVE_READINGS_REQUIRED = 2` readings have
accumulated; concretely, with readings `[26, 24, 24]` the machine is still
Idle after the first two readings and enters Detecting exactly on the
third (index 2). -/
theorem hysteresis_entry_spec (ds : List ℚ) (st : DetectState) (now : Nat)
    (hvalid : ∀ d ∈ ds, 0 ≤ d ∧ d ≤ 25)
    (hact : st.detectionActive = false) (hcnt : st.consecutiveValidReadings = 0) :
    ((pollSensorSeq st ds now).detectionActive = true ↔
      CONSECUTIVE_READINGS_REQUIRED ≤ ds.length) ∧
    (pollSensorSeq ⟨false, 0, 0, 0, 0⟩ [26] 0).detectionActive = false ∧
    (pollSensorSeq ⟨false, 0, 0, 0, 0⟩ [26, 24] 0).detectionActive = false ∧
    (pollSensorSeq ⟨false, 0, 0, 0, 0⟩ [26, 24, 24] 0).detectionActive = true := by
  have s1 : pollSensor ⟨false, 0, 0, 0, 0⟩ 26 0 = ⟨false, 0, 0, 0, 0⟩ := by
    rw [pollSensor_idle_out _ 26 0 rfl (by norm_num) (by norm_num)]
  have s2 : pollSensor ⟨false, 0, 0, 0, 0⟩ 24 0 = ⟨false, 1, 0, 0, 0⟩ := by
    rw [pollSensor_idle_low _ 24 0 rfl (by norm_num) (by norm_num) (by decide)]
  have s3 : pollSensor ⟨false, 1, 0, 0, 0⟩ 24 0 = ⟨true, 0, 0, 0, 0⟩ := by
    rw [pollSensor_idle_enter _ 24 0 rfl (by norm_num) (by norm_num) (by decide)]
  refine ⟨?_, ?_, ?_, ?_⟩
  · cases ds with
    | nil =>
      simp [pollSensorSeq, hact, CONSECUTIVE_READINGS_REQUIRED]
    | cons d1 rest =>
      have hd1 := hvalid d1 (by simp)
      have e1 : pollSensor st d1 now =
          { st with
            consecutiveValidReadings := st.consecutiveValidReadings + 1,
            consecutiveOutOfRange := 0 } :=
        pollSensor_idle_low st d1 now hact hd1.1 hd1.2
          (show st.consecutiveValidReadings + 1 < 2 by omega)
      cases rest with
      | nil =>
        simp only [pollSensorSeq, List.foldl_cons, List.foldl_nil]
        rw [e1, show ({ st with
          consecutiveValidReadings := st.consecutiveValidReadings + 1,
          consecutiveOutOfRange := 0 } : DetectState).detectionActive =
            st.detectionActive from rfl, hact]
        simp [CONSECUTIVE_READINGS_REQUIRED]
      | cons d2 rest2 =>
        have hd2 := hvalid d2 (by simp)
        have e2 : pollSensor ({ st with
            consecutiveValidReadings := st.consecutiveValidReadings + 1,
            consecutiveOutOfRange := 0 } : DetectState) d2 now =
            { st with
              detectionActive := true, consecutiveValidReadings := 0,
              consecutiveOutOfRange := 0, firstDetectionTime := now,
              lastAlertTime := 0 } :=
          pollSensor_idle_enter
            ({ st with
              consecutiveValidReadings := st.consecutiveValidReadings + 1,
              consecutiveOutOfRange := 0 }) d2 now hact hd2.1 hd2.2
            (show 2 ≤ st.consecutiveValidReadings + 1 + 1 by omega)
        have hstable := pollSensorSeq_detecting_stable rest2
          ({ st with
            detectionActive := true, consecutiveValidReadings := 0,
            consecutiveOutOfRange := 0, firstDetectionTime := now,
            lastAlertTime := 0 } : DetectState) now rfl
          (fun x hx => hvalid x (by simp [hx]))
        simp only [pollSensorSeq, List.foldl_cons] at hstable ⊢
        rw [e1, e2, hstable]
        simp [CONSECUTIVE_READINGS_REQUIRED]
  · simp [pollSensorSeq, s1]
  · simp [pollSensorSeq, s1, s2]
  · simp [pollSensorSeq, s1, s2, s3]

/-- Witness for C6 at readings `[24, 24]` from the initial idle state
(and the concrete `[26, 24, 24]` trace). -/
theorem hysteresis_entry_spec_witness :
    (∀ d ∈ [(24 : ℚ), 24], 0 ≤ d ∧ d ≤ 25) ∧
    (DetectState.mk false 0 0 0 0).detectionActive = false ∧
    (DetectState.mk false 0 0 0 0).consecutiveValidReadings = 0 ∧
    ((pollSensorSeq ⟨false, 0, 0, 0, 0⟩ [24, 24] 0).detectionActive = true ↔
      CONSECUTIVE_READINGS_REQUIRED ≤ ([(24 : ℚ), 24]).length) ∧
    (pollSensorSeq ⟨false, 0, 0, 0, 0⟩ [26, 24, 24] 0).detectionActive = true :=
  ⟨by norm_num, rfl, rfl,
    (hysteresis_entry_spec [24, 24] ⟨false, 0, 0, 0, 0⟩ 0 (by norm_num) rfl rfl).1,
    (hysteresis_entry_spec [24, 24] ⟨false, 0, 0, 0, 0⟩ 0 (by norm_num) rfl rfl).2.2.2⟩

/-- C7: an invalid reading (negative `measureDistance` result) only clears
the in-range counter — detection flag and out-of-range counter are
untouched; concretely, from Detecting, `[30, 30]` (against the 27 cm exit
threshold) exits to Idle on the second reading, and `[30, invalid, 30]`
still exits on the second `30`: the interleaved invalid reading neither
increments nor resets the out-of-range counter. -/
theorem hysteresis_exit_spec (st : DetectState) (d : ℚ) (now : Nat)
    (hd : d < 0) :
    pollSensor st d now = { st with consecutiveValidReadings := 0 } ∧
    pollSensor ⟨true, 0, 0, 0, 0⟩ 30 0 = ⟨true, 0, 1, 0, 0⟩ ∧
    (pollSensorSeq ⟨true, 0, 0, 0, 0⟩ [30, 30] 0).detectionActive = false ∧
    (pollSensorSeq ⟨true, 0, 0, 0, 0⟩ [30, -1] 0).detectionActive = true ∧
    (pollSensorSeq ⟨true, 0, 0, 0, 0⟩ [30, -1] 0).consecutiveOutOfRange = 1 ∧
    (pollSensorSeq ⟨true, 0, 0, 0, 0⟩ [30, -1, 30] 0).detectionActive = false := by
  have t1 : pollSensor ⟨true, 0, 0, 0, 0⟩ 30 0 = ⟨true, 0, 1, 0, 0⟩ := by
    rw [pollSensor_active_out_low _ 30 0 rfl (by norm_num) (by norm_num) (by decide)]
  have t2 : pollSensor ⟨true, 0, 1, 0, 0⟩ 30 0 = ⟨false, 0, 0, 0, 0⟩ := by
    rw [pollSensor_active_out_exit _ 30 0 rfl (by norm_num) (by norm_num) (by decide)]
  have t3 : pollSensor ⟨true, 0, 1, 0, 0⟩ (-1) 0 = ⟨true, 0, 1, 0, 0⟩ := by
    rw [pollSensor_invalid _ (-1) 0 (by norm_num)]
  refine ⟨pollSensor_invalid st d now hd, t1, ?_, ?_, ?_, ?_⟩
  · simp [pollSensorSeq, t1, t2]
  · simp [pollSensorSeq, t1, t3]
  · simp [pollSensorSeq, t1, t3]
  · simp [pollSensorSeq, t1, t3, t2]

/-- Witness for C7 at the invalid reading `-1` from a populated state
(and the `[30, invalid, 30]` trace). -/
theorem hysteresis_exit_spec_witness :
    ((-1 : ℚ) < 0) ∧
    pollSensor ⟨true, 5, 1, 7, 9⟩ (-1) 0 = ⟨true, 0, 1, 7, 9⟩ ∧
    (pollSensorSeq ⟨true, 0, 0, 0, 0⟩ [30, -1, 30] 0).detectionActive = false :=
  ⟨by norm_num,
    (hysteresis_exit_spec ⟨true, 5, 1, 7, 9⟩ (-1) 0 (by norm_num)).1,
    (hysteresis_exit_spec ⟨true, 5, 1, 7, 9⟩ (-1) 0 (by norm_num)).2.2.2.2.2⟩

/-! ## Message payload construction (`createMessagePayload` of both
templates).  ArduinoJson serializes object members in insertion order, so
a payload is modelled as its ordered field list. -/

/-- JSON values as inserted by `createMessagePayload`; numeric fields
(integers and floats) are carried as rationals. -/
inductive JsonValue where
  | str (s : String)
  | num (q : ℚ)
  | obj (fields : List (String × JsonValue))

/-- Message types of `messaging.h`. -/
inductive MessageType where
  | HEARTBEAT
  | ALERT

/-- Embedding of `createMessagePayload` from the P256 (ultrasonic)
template: common fields, then the type tag, then the type-specific `data`
object, in insertion order.  Collaborator values (`DEVICE_ID`,
`getCurrentTimestamp()`, `getUptimeSeconds()`, `getWiFiRSSI()`,
`ESP.getFreeHeap()`) are passed as parameters. -/
def createMessagePayload_P256 (type : MessageType) (deviceId timestamp : String)
    (uptime : Nat) (wifiRSSI : Int) (freeHeap : Nat) (distance : ℚ)
    (durationSeconds : Nat) (firstDetectedTimestamp : String) :
    List (String × JsonValue) :=
  [("device_id", JsonValue.str deviceId), ("timestamp", JsonValue.str timestamp)] ++
    (match type with
     | MessageType.HEARTBEAT =>
        [("message_type", JsonValue.str "heartbeat"),
         ("data", JsonValue.obj
           [("status", JsonValue.str "online"),
            ("uptime", JsonValue.num uptime),
            ("wifi_rssi", JsonValue.num wifiRSSI),
            ("free_memory", JsonValue.num freeHeap)])]
     | MessageType.ALERT =>
        [("message_type", JsonValue.str "alert"),
         ("data", JsonValue.obj
           [("event", JsonValue.str "ultrasonic_detection"),
            ("sensor_type", JsonValue.str "HC-SR04"),
            ("detected_distance_cm", JsonValue.num distance),
            ("detection_duration_seconds", JsonValue.num durationSeconds),
            ("first_detected_at", JsonValue.str firstDetectedTimestamp),
            ("confidence", JsonValue.num 1)])])

/-- Embedding of `createMessagePayload` from the C3DS (button) template. -/
def createMessagePayload_C3DS (type : MessageType) (deviceId timestamp : String)
    (uptime : Nat) (wifiRSSI : Int) (freeHeap : Nat) :
    List (String × JsonValue) :=
  [("device_id", JsonValue.str deviceId), ("timestamp", JsonValue.str timestamp)] ++
    (match type with
     | MessageType.HEARTBEAT =>
        [("message_type", JsonValue.str "heartbeat"),
         ("data", JsonValue.obj
           [("status", JsonValue.str "online"),
            ("uptime", JsonValue.num uptime),
            ("wifi_rssi", JsonValue.num wifiRSSI),
            ("free_memory", JsonValue.num freeHeap)])]
     | MessageType.ALERT =>
        [("message_type", JsonValue.str "alert"),
         ("data", JsonValue.obj
           [("event", JsonValue.str "button_press"),
            ("sensor_type", JsonValue.str "manual"),
            ("confidence", JsonValue.num 1)])])

/-- The ordered key list of the `data` object of a payload. -/
def dataKeys (payload : List (String × JsonValue)) : List String :=
  match payload.lookup "data" with
  | some (JsonValue.obj fields) => fields.map Prod.fst
  | _ => []

/-- C5 counterexample: the heartbeat `data` object's third field is named
`wifi_rssi`, not `signal_strength`, and the hysteresis alert's distance and
duration fields are named `detected_distance_cm` and
`detection_duration_seconds`, not `distance_cm` and `duration_seconds`. -/
theorem createMessagePayload_fields_cex :
    "signal_strength" ∉
      dataKeys (createMessagePayload_P256 MessageType.HEARTBEAT "id" "ts" 1 1 1 0 0 "t0") ∧
    "distance_cm" ∉
      dataKeys (createMessagePayload_P256 MessageType.ALERT "id" "ts" 1 1 1 0 0 "t0") ∧
    "duration_seconds" ∉
      dataKeys (createMessagePayload_P256 MessageType.ALERT "id" "ts" 1 1 1 0 0 "t0") := by
  refine ⟨?_, ?_, ?_⟩ <;> decide

/-- C5 (amended): for every argument tuple, the heartbeat `data` object of
both templates carries exactly the ordered fields
`{status, uptime, wifi_rssi, free_memory}`, and the hysteresis-variant
alert carries exactly `{event, sensor_type, detected_distance_cm,
detection_duration_seconds, first_detected_at, confidence}` (the button
variant's alert carries `{event, sensor_type, confidence}`); order and
presence are fixed per message type. -/
theorem createMessagePayload_fields (deviceId timestamp : String)
    (uptime : Nat) (wifiRSSI : Int) (freeHeap : Nat) (distance : ℚ)
    (durationSeconds : Nat) (firstDetectedTimestamp : String) :
    dataKeys (createMessagePayload_P256 MessageType.HEARTBEAT deviceId timestamp
        uptime wifiRSSI freeHeap distance durationSeconds firstDetectedTimestamp) =
      ["status", "uptime", "wifi_rssi", "free_memory"] ∧
    dataKeys (createMessagePayload_P256 MessageType.ALERT deviceId timestamp
        uptime wifiRSSI freeHeap distance durationSeconds firstDetectedTimestamp) =
      ["event", "sensor_type", "detected_distance_cm",
       "detection_duration_seconds", "first_detected_at", "confidence"] ∧
    dataKeys (createMessagePayload_C3DS MessageType.HEARTBEAT deviceId timestamp
        uptime wifiRSSI freeHeap) =
      ["status", "uptime", "wifi_rssi", "free_memory"] ∧
    dataKeys (createMessagePayload_C3DS MessageType.ALERT deviceId timestamp
        uptime wifiRSSI freeHeap) =
      ["event", "sensor_type", "confidence"] :=
  ⟨rfl, rfl, rfl, rfl⟩

/-! ## Button debounce and rate limit (C3DS `hardware.cpp`,
`checkButtonPress`).  `HIGH` is modelled as `true`, `LOW` (pressed, via
the pull-up) as `false`. -/

/-- `DEBOUNCE_DELAY` from C3DS `config.h`: 50 ms. -/
def DEBOUNCE_DELAY : Nat := 50

/-- `MIN_PRESS_INTERVAL` from C3DS `config.h`: 2000 ms. -/
def MIN_PRESS_INTERVAL : Nat := 2000

/-- The button-debouncing module state of C3DS `hardware.cpp`.  Initial
values: both levels `HIGH`, both timers 0. -/
structure ButtonState where
  lastButtonState : Bool
  buttonState : Bool
  lastDebounceTime : Nat
  lastPressTime : Nat
deriving DecidableEq

/-- Embedding of `checkButtonPress`: one call with the sampled pin level
`reading` at clock `now`; returns whether an alert fires and the updated
state.  Mirror of the C control flow, including the accepted-press early
`return true` that skips the final `lastButtonState = reading`
assignment. -/
def checkButtonPress (st : ButtonState) (reading : Bool) (now : Nat) :
    Bool × ButtonState :=
  let st1 := if reading ≠ st.lastButtonState
    then { st with lastDebounceTime := now } else st
  if DEBOUNCE_DELAY < usub32 now st1.lastDebounceTime then
    if reading ≠ st1.buttonState then
      let st2 := { st1 with buttonState := reading }
      if st2.buttonState = false then
        if MIN_PRESS_INTERVAL ≤ usub32 now st2.lastPressTime then
          (true, { st2 with lastPressTime := now })
        else
          (false, { st2 with lastButtonState := reading })
      else
        (false, { st2 with lastButtonState := reading })
    else
      (false, { st1 with lastButtonState := reading })
  else
    (false, { st1 with lastButtonState := reading })

/-- Sequence of `checkButtonPress` calls: the list of fired events and the
final state. -/
def runButtonCalls (st : ButtonState) : List (Bool × Nat) → List Bool × ButtonState
  | [] => ([], st)
  | (reading, now) :: rest =>
      let r := checkButtonPress st reading now
      let rs := runButtonCalls r.2 rest
      (r.1 :: rs.1, rs.2)

/-- C8: with `MIN_PRESS_INTERVAL = 2000` ms, two debounced presses whose
active commits happen 2001 ms apart both fire, while of two commits
1999 ms apart only the first fires — the second is suppressed by the rate
limit (the button level is sampled `LOW = pressed`; each press is held for
two polls 100 ms apart to pass the 50 ms debounce window, then released
the same way).  Parametric in the time `t1` of the first sample, for any
steady-state clock at least 1900 ms after boot. -/
theorem checkButtonPress_rate_limit (t1 : Nat) (h1 : 1900 ≤ t1)
    (h2 : t1 + 2101 < 4294967296) :
    (runButtonCalls ⟨true, true, 0, 0⟩
      [(false, t1), (false, t1 + 100), (true, t1 + 200), (true, t1 + 300),
       (false, t1 + 2001), (false, t1 + 2101)]).1 =
      [false, true, false, false, false, true] ∧
    (runButtonCalls ⟨true, true, 0, 0⟩
      [(false, t1), (false, t1 + 100), (true, t1 + 200), (true, t1 + 300),
       (false, t1 + 1999), (false, t1 + 2099)]).1 =
      [false, true, false, false, false, false] := by
  have hp : (2000 : Nat) ≤ t1 + 100 := by omega
  have ua : usub32 (t1 + 100) t1 = 100 := by
    rw [usub32_of_le (t1 + 100) t1 (by omega) (by omega)]; omega
  have ub : usub32 (t1 + 100) 0 = t1 + 100 := by
    rw [usub32_of_le (t1 + 100) 0 (by omega) (by omega)]; omega
  have uc : usub32 (t1 + 300) (t1 + 200) = 100 := by
    rw [usub32_of_le (t1 + 300) (t1 + 200) (by omega) (by omega)]; omega
  have ud : usub32 (t1 + 2101) (t1 + 2001) = 100 := by
    rw [usub32_of_le (t1 + 2101) (t1 + 2001) (by omega) (by omega)]; omega
  have ue : usub32 (t1 + 2101) (t1 + 100) = 2001 := by
    rw [usub32_of_le (t1 + 2101) (t1 + 100) (by omega) (by omega)]; omega
  have uf : usub32 (t1 + 2099) (t1 + 1999) = 100 := by
    rw [usub32_of_le (t1 + 2099) (t1 + 1999) (by omega) (by omega)]; omega
  have ug : usub32 (t1 + 2099) (t1 + 100) = 1999 := by
    rw [usub32_of_le (t1 + 2099) (t1 + 100) (by omega) (by omega)]; omega
  have s1 : checkButtonPress ⟨true, true, 0, 0⟩ false t1 =
      (false, ⟨false, true, t1, 0⟩) := by
    simp [checkButtonPress, usub32_self, DEBOUNCE_DELAY]
  have s2 : checkButtonPress ⟨false, true, t1, 0⟩ false (t1 + 100) =
      (true, ⟨false, false, t1, t1 + 100⟩) := by
    simp [checkButtonPress, ua, ub, DEBOUNCE_DELAY, MIN_PRESS_INTERVAL, hp]
  have s3 : checkButtonPress ⟨false, false, t1, t1 + 100⟩ true (t1 + 200) =
      (false, ⟨true, false, t1 + 200, t1 + 100⟩) := by
    simp [checkButtonPress, usub32_self, DEBOUNCE_DELAY]
  have s4 : checkButtonPress ⟨true, false, t1 + 200, t1 + 100⟩ true (t1 + 300) =
      (false, ⟨true, true, t1 + 200, t1 + 100⟩) := by
    simp [checkButtonPress, uc, DEBOUNCE_DELAY]
  have s5 : checkButtonPress ⟨true, true, t1 + 200, t1 + 100⟩ false (t1 + 2001) =
      (false, ⟨false, true, t1 + 2001, t1 + 100⟩) := by
    simp [checkButtonPress, usub32_self, DEBOUNCE_DELAY]
  have s6 : checkButtonPress ⟨false, true, t1 + 2001, t1 + 100⟩ false (t1 + 2101) =
      (true, ⟨false, false, t1 + 2001, t1 + 2101⟩) := by
    simp [checkButtonPress, ud, ue, DEBOUNCE_DELAY, MIN_PRESS_INTERVAL]
  have s5b : checkButtonPress ⟨true, true, t1 + 200, t1 + 100⟩ false (t1 + 1999) =
      (false, ⟨false, true, t1 + 1999, t1 + 100⟩) := by
    simp [checkButtonPress, usub32_self, DEBOUNCE_DELAY]
  have s6b : checkButtonPress ⟨false, true, t1 + 1999, t1 + 100⟩ false (t1 + 2099) =
      (false, ⟨false, false, t1 + 1999, t1 + 100⟩) := by
    simp [checkButtonPress, uf, ug, DEBOUNCE_DELAY, MIN_PRESS_INTERVAL]
  constructor
  · simp [runButtonCalls, s1, s2, s3, s4, s5, s6]
  · simp [runButtonCalls, s1, s2, s3, s4, s5b, s6b]

/-- Witness for C8 with the first sample at 5000 ms. -/
theorem checkButtonPress_rate_limit_witness :
    1900 ≤ 5000 ∧ 5000 + 2101 < 4294967296 ∧
    (runButtonCalls ⟨true, true, 0, 0⟩
      [(false, 5000), (false, 5100), (true, 5200), (true, 5300),
       (false, 7001), (false, 7101)]).1 =
      [false, true, false, false, false, true] :=
  ⟨by decide, by decide,
    (checkButtonPress_rate_limit 5000 (by decide) (by decide)).1⟩
